import Mathlib

/-!
Verification of the parameter-refinement / validation / geometry pipeline of the
bridge-design prototype (shallow embedding of the Python sources).

Strings are embedded as `List Char`; Python floats are idealised as `ℚ`
(exact rational arithmetic; `round(x, 2)` becomes decimal round-half-to-even on
rationals).  Python dicts become association lists (`Dict`), with first-match
lookup and in-place-or-append update, matching CPython semantics.  Code that can
raise (`ZeroDivisionError`) is embedded in `Except PyError`.
-/

namespace Bridge3D

abbrev Str := List Char

/-- Boolean substring test, the embedding of Python's `needle in haystack`. -/
def isSubstr : Str → Str → Bool
  | pat, [] => pat.isEmpty
  | pat, c :: rest => pat.isPrefixOf (c :: rest) || isSubstr pat rest

/-- Embedding of `str.lower()`.  `Char.toLower` lowers exactly the ASCII range;
all keywords compared in the sources are ASCII or Chinese (caseless), so this
agrees with Python on every string the pipeline inspects. -/
def toLowerStr (s : Str) : Str := s.map Char.toLower

/-- Embedding of `str.upper()` (ASCII, see `toLowerStr`). -/
def toUpperStr (s : Str) : Str := s.map Char.toUpper

/-- Embedding of `str.strip()` (whitespace at both ends). -/
def stripStr (s : Str) : Str :=
  ((s.dropWhile Char.isWhitespace).reverse.dropWhile Char.isWhitespace).reverse

/-- Replace every occurrence of `pat` in `s` by `rep`, left to right, as
Python's `str.replace` does.  Fuel-driven recursion; the wrapper passes
`s.length`, which suffices because each step consumes at least one character. -/
def replaceAllAux : Nat → Str → Str → Str → Str
  | 0, s, _, _ => s
  | fuel + 1, s, pat, rep =>
    match s with
    | [] => []
    | c :: rest =>
      if !pat.isEmpty && pat.isPrefixOf s then
        rep ++ replaceAllAux fuel (s.drop pat.length) pat rep
      else
        c :: replaceAllAux fuel rest pat rep

def replaceAll (s pat rep : Str) : Str := replaceAllAux s.length s pat rep

/-- Numeric value of a (non-empty) ASCII digit string. -/
def natOfDigits (s : Str) : Nat :=
  s.foldl (fun a c => a * 10 + (c.toNat - '0'.toNat)) 0

/-- Parse the regex token `\d+\.?\d*` starting at a digit: maximal run of
digits, an optional dot, a maximal (possibly empty) second run.  Returns the
numeric value of the match and the remainder of the string. -/
def parseNumAt (s : Str) : ℚ × Str :=
  let d1 := s.takeWhile Char.isDigit
  let r1 := s.dropWhile Char.isDigit
  match r1 with
  | '.' :: r2 =>
    let d2 := r2.takeWhile Char.isDigit
    ((natOfDigits d1 : ℚ) + (natOfDigits d2 : ℚ) / (10 : ℚ) ^ d2.length,
      r2.dropWhile Char.isDigit)
  | _ => ((natOfDigits d1 : ℚ), r1)

/-- Embedding of `re.search(r"(\d+\.?\d*)", s)` followed by `float(...)`:
the first position holding a digit starts the match (greedy munch). -/
def firstNumber : Str → Option ℚ
  | [] => Option.none
  | c :: rest =>
    if c.isDigit then some (parseNumAt (c :: rest)).1 else firstNumber rest

/-- Embedding of `re.search(r"(\d+\.?\d*)\s*m", s)`: scan start positions left
to right; at a digit, munch the number token, skip whitespace, and demand a
literal `m` (backtracking inside the token cannot help, since a shorter munch
leaves a digit where `\s*m` must match). -/
def numThenM : Str → Option ℚ
  | [] => Option.none
  | c :: rest =>
    if c.isDigit then
      let p := parseNumAt (c :: rest)
      match p.2.dropWhile Char.isWhitespace with
      | 'm' :: _ => some p.1
      | _ => numThenM rest
    else numThenM rest

/-- Round-half-to-even to an integer (the rounding Python's `round` uses),
over exact rationals. -/
def roundHalfEven (q : ℚ) : ℤ :=
  let f := ⌊q⌋
  let frac := q - (f : ℚ)
  if frac < 1 / 2 then f
  else if 1 / 2 < frac then f + 1
  else if f % 2 = 0 then f else f + 1

/-- Embedding of Python's `round(x, 2)`, idealised over ℚ (no binary-float
representation error). -/
def pyRound2 (q : ℚ) : ℚ := (roundHalfEven (q * 100) : ℚ) / 100

/-- Decimal expansion of the fractional remainder `r / den`, most significant
digit first, up to `fuel` places. -/
def fracDigitsAux : Nat → Nat → Nat → Str
  | 0, _, _ => []
  | _ + 1, 0, _ => []
  | fuel + 1, r, den =>
    (Char.ofNat ('0'.toNat + r * 10 / den)) :: fracDigitsAux fuel (r * 10 % den) den

/-- Decimal string of a rational, the embedding of Python's `str` on numbers.
Exact whenever the denominator divides a power of ten (every decimal literal
the pipeline produces); 17 fractional places mirror the float repr limit.
Integer-valued numbers print without a trailing `.0` (as Python ints do; the
only consumer is digit extraction, which is insensitive to that choice). -/
def decimalRepr (x : ℚ) : Str :=
  let intPart : Str := (toString (x.num.natAbs / x.den)).data
  let frac := fracDigitsAux 17 (x.num.natAbs % x.den) x.den
  let frac := (frac.reverse.dropWhile (· = '0')).reverse
  (if x < 0 then ['-'] else []) ++ intPart ++ (if frac.isEmpty then [] else '.' :: frac)

/-- Python exceptions that the embedded fragments could raise. -/
inductive PyError where
  | zeroDivision
deriving DecidableEq

deriving instance DecidableEq for Except

/-- Checked division: Python `/` on numbers. -/
def qdiv (a b : ℚ) : Except PyError ℚ :=
  if b = 0 then .error .zeroDivision else .ok (a / b)

/-- Embedded Python values (the payloads of the parameter dicts). -/
inductive Val where
  | str (s : Str)
  | num (x : ℚ)
  | boolean (b : Bool)
  | pyNone
  | kbInfo (bridgeType : Str)   -- a `COMMON_BRIDGE_TYPES` entry, kept opaque
  | note (tag : Nat)            -- an f-string note whose text is not modelled
deriving DecidableEq

/-- Python dict as an association list: first occurrence of a key wins. -/
abbrev Dict := List (Str × Val)

def dictGet : Dict → Str → Option Val
  | [], _ => Option.none
  | (k, v) :: rest, key => if k = key then some v else dictGet rest key

/-- `d[key] = v`: replace in place if the key exists, else append (CPython
insertion-order semantics). -/
def setKey : Dict → Str → Val → Dict
  | [], key, v => [(key, v)]
  | (k, w) :: rest, key, v =>
    if k = key then (k, v) :: rest else (k, w) :: setKey rest key v

/-- `del d[key]` (first occurrence). -/
def delKey : Dict → Str → Dict
  | [], _ => []
  | (k, w) :: rest, key => if k = key then rest else (k, w) :: delKey rest key

/-- Python truthiness of an embedded value. -/
def valTruthy : Val → Bool
  | .str s => !s.isEmpty
  | .num x => x ≠ 0
  | .boolean b => b
  | .pyNone => false
  | .kbInfo _ => true
  | .note _ => true

/-- Truthiness of `d.get(key)` (missing keys are falsy `None`). -/
def truthyOpt (o : Option Val) : Bool :=
  match o with
  | some v => valTruthy v
  | Option.none => false

/-- Truthiness of an `Optional[Dict]` (Python: `None` and `{}` are falsy). -/
def dictTruthy (o : Option Dict) : Bool :=
  match o with
  | some d => !d.isEmpty
  | Option.none => false

/-- Embedding of `str(value)` as used on parameter values.  Dict-valued
knowledge-base entries keep only their key (their repr text is never parsed). -/
def pyStrOfVal : Val → Str
  | .str s => s
  | .num x => decimalRepr x
  | .boolean true => "True".data
  | .boolean false => "False".data
  | .pyNone => "None".data
  | .kbInfo s => s
  | .note _ => []

/-- `d.get(key, "").lower()`.  A non-string value here would raise
`AttributeError` in Python; the pipeline only ever stores strings under the
keys this is applied to, so that path is collapsed to the default. -/
def getStrLower (d : Dict) (key : Str) : Str :=
  match dictGet d key with
  | some (.str s) => toLowerStr s
  | _ => []

/-! ## GeometryBuilder (`src/models/geometry_builder.py`) -/

inductive GeomType where
  | BoxGeometry
  | CylinderGeometry
deriving DecidableEq

/-- A `{"type": ..., "args": [...]}` geometry descriptor. -/
structure Geom where
  gtype : GeomType
  args : List ℚ
deriving DecidableEq

/-- Return record of `BridgeGeometryBuilder.create_box_girder`. -/
structure BoxGirderResult where
  outer : Geom
  inner : Option Geom
  length : ℚ
  width : ℚ
  height : ℚ
  wall_thickness : ℚ
deriving DecidableEq

def create_box_girder (length width height wall_thickness : ℚ) : BoxGirderResult :=
  let outer : Geom := ⟨.BoxGeometry, [width, height, length]⟩
  let inner_width := width - 2 * wall_thickness
  let inner_height := height - 2 * wall_thickness
  let inner : Option Geom :=
    if inner_width ≤ 0 ∨ inner_height ≤ 0 then Option.none
    else some ⟨.BoxGeometry, [inner_width, inner_height, length]⟩
  ⟨outer, inner, length, width, height, wall_thickness⟩

/-- The `error` value placed on a pier record for an unsupported type
(`f"Unsupported pier type: {pier_type}. Using default box."`). -/
inductive PierError where
  | unsupported (pier_type : Str)
deriving DecidableEq

/-- The `cross_section` dict of `create_pier` (keys `radius`/`width`/`depth`,
read with `.get(..., 1.0)` defaults). -/
structure CrossSection where
  radius : Option ℚ := Option.none
  width : Option ℚ := Option.none
  depth : Option ℚ := Option.none
deriving DecidableEq

/-- Return record of `BridgeGeometryBuilder.create_pier`; optional fields are
the keys the Python code conditionally inserts. -/
structure PierGeometry where
  pier_type : Str
  height : ℚ
  shape : Geom
  radius : Option ℚ
  width : Option ℚ
  depth : Option ℚ
  error : Option PierError
deriving DecidableEq

def create_pier (pier_type : Str) (height : ℚ) (cross_section : CrossSection) :
    PierGeometry :=
  if pier_type = "cylindrical".data then
    let radius := cross_section.radius.getD 1
    { pier_type := pier_type, height := height,
      shape := ⟨.CylinderGeometry, [radius, radius, height, 32]⟩,
      radius := some radius, width := Option.none, depth := Option.none,
      error := Option.none }
  else if pier_type = "rectangular".data then
    let width := cross_section.width.getD 1
    let depth := cross_section.depth.getD 1
    { pier_type := pier_type, height := height,
      shape := ⟨.BoxGeometry, [width, height, depth]⟩,
      radius := Option.none, width := some width, depth := some depth,
      error := Option.none }
  else
    { pier_type := pier_type, height := height,
      shape := ⟨.BoxGeometry, [1, height, 1]⟩,
      radius := Option.none, width := Option.none, depth := Option.none,
      error := some (.unsupported pier_type) }

/-! ## DesignValidator (`src/validators/bridge_validator.py`) -/

/-- Coarse type keys of `DESIGN_PARAMETER_RANGES["span_to_depth_ratio"]`
lookups performed by the validator. -/
inductive SDTypeKey where
  | prestressed_concrete_beam
  | steel_beam
  | steel_truss
  | concrete_beam
  | concrete_arch
  | truss
deriving DecidableEq

/-- The nested keyword dispatch of `validate_span_to_depth_ratio`
(lines 59-70): note the first branch falls through to `None`, not to the
`elif`s, when "beam"/"girder" is missing. -/
def typeKeyFor (bridge_type : Str) : Option SDTypeKey :=
  let l := toLowerStr bridge_type
  if isSubstr "prestressed".data l &&
      (isSubstr "concrete".data l || isSubstr "pc".data l) then
    if isSubstr "beam".data l || isSubstr "girder".data l then
      some .prestressed_concrete_beam
    else Option.none
  else if isSubstr "steel".data l then
    if isSubstr "beam".data l || isSubstr "girder".data l then some .steel_beam
    else if isSubstr "truss".data l then some .steel_truss
    else Option.none
  else if isSubstr "concrete".data l then
    if isSubstr "beam".data l || isSubstr "girder".data l then some .concrete_beam
    else if isSubstr "arch".data l then some .concrete_arch
    else Option.none
  else if isSubstr "truss".data l then some .truss
  else Option.none

/-- `DESIGN_PARAMETER_RANGES["span_to_depth_ratio"]` from
`src/knowledge/bridge_knowledge.py` (lines 48-54), as reached through
`get_design_parameter_range`: `steel_truss` and `concrete_arch` have no entry,
so the lookup yields an error dict, embedded as `none`. -/
def span_to_depth_range : SDTypeKey → Option (ℚ × ℚ)
  | .steel_beam => some (15, 25)
  | .concrete_beam => some (10, 20)
  | .prestressed_concrete_beam => some (18, 30)
  | .truss => some (8, 12)
  | .steel_truss => Option.none
  | .concrete_arch => Option.none

/-- Messages produced by `validate_span_to_depth_ratio`; payloads carry the
values interpolated into the Python f-strings.  `mustBePositive` stands for
the literal text "Span and depth must be positive values." -/
inductive SDMsg where
  | mustBePositive
  | skippedNoKey (bridge_type : Str) (rat : ℚ)
  | skippedNoRange (key : SDTypeKey) (rat : ℚ)
  | withinRange (rat lo hi : ℚ) (key : SDTypeKey)
  | outsideRange (rat lo hi : ℚ) (key : SDTypeKey)
deriving DecidableEq

/-- `BridgeDesignValidator.validate_span_to_depth_ratio` (knowledge base
imported successfully, as in the shipped tree).  The division is the one
operation that could raise, hence the `Except`. -/
def validate_span_to_depth_ratio (span depth : ℚ) (bridge_type : Str) :
    Except PyError (Bool × SDMsg) :=
  if ¬span > 0 ∨ ¬depth > 0 then .ok (false, .mustBePositive)
  else
    match qdiv span depth with
    | .error e => .error e
    | .ok rat =>
      match typeKeyFor bridge_type with
      | Option.none => .ok (true, .skippedNoKey bridge_type rat)
      | some key =>
        match span_to_depth_range key with
        | Option.none => .ok (true, .skippedNoRange key rat)
        | some (lo, hi) =>
          if lo ≤ rat ∧ rat ≤ hi then .ok (true, .withinRange rat lo hi key)
          else .ok (false, .outsideRange rat lo hi key)

/-- `int(''.join(filter(str.isdigit, s)))`, with the empty-digits case left at
the initial `seismic_level = 0`. -/
def parseSeismicLevel (s : Str) : Nat := natOfDigits (s.filter Char.isDigit)

/-- Keyword list of the beam-to-pier connection check (line 162). -/
def seismicTerms : List Str :=
  ["seismic".data, "抗震".data, "damper".data, "isolation".data, "限位".data]

/-- Messages of `validate_seismic_requirements` (notes text not modelled
beyond its controlling data). -/
inductive SeisMsg where
  | skippedNoIntensity
  | highIntensityNotAddressed (intensity : Str)
  | addressed (intensity : Str) (ductilityNoteAdded : Bool)
  | mentionedAtLowerIntensity (intensity : Str)
  | basicPass (intensity : Str)
deriving DecidableEq

/-- The ductility advisory of lines 170-172: true when the reinforcement grade
lacks every enhanced-ductility marker (`D`, `E`, `SD`) and the note is added. -/
def ductilityNoteNeeded (design_materials : Dict) : Bool :=
  let grade := toUpperStr (pyStrOfVal
    ((dictGet design_materials "reinforcement_steel_grade".data).getD (.str [])))
  !(["D".data, "E".data, "SD".data].any (fun t => isSubstr t grade))

/-- Whether any of the four seismic mentions fires (lines 148-164): the first
three keys are presence-and-truthiness checks, the connection check is
presence plus a lowercase keyword scan of `str(value)`. -/
def mentionedSeismicDesign (design_params : Dict) : Bool :=
  truthyOpt (dictGet design_params "seismic_design_intensity".data) ||
  truthyOpt (dictGet design_params "seismic_considerations_foundation".data) ||
  truthyOpt (dictGet design_params "other_seismic_details".data) ||
  (match dictGet design_params "beam_to_pier_connection".data with
   | some v =>
     seismicTerms.any (fun t => isSubstr t (toLowerStr (pyStrOfVal v)))
   | Option.none => false)

/-- `BridgeDesignValidator.validate_seismic_requirements`.  The
`seismic_intensity_str` argument is `Optional[str]`; `None` and the empty
string both take the top `if not seismic_intensity_str` exit. -/
def validate_seismic_requirements (design_params : Dict) (design_materials : Dict)
    (seismic_intensity_str : Option Str) : Bool × SeisMsg :=
  match seismic_intensity_str with
  | Option.none => (true, .skippedNoIntensity)
  | some istr =>
    if istr.isEmpty then (true, .skippedNoIntensity)
    else
      let level := parseSeismicLevel istr
      let mentioned := mentionedSeismicDesign design_params
      if 7 ≤ level then
        if !mentioned then (false, .highIntensityNotAddressed istr)
        else (true, .addressed istr (ductilityNoteNeeded design_materials))
      else if mentioned then (true, .mentionedAtLowerIntensity istr)
      else (true, .basicPass istr)

/-! ## ParameterRefiner (`BridgeService.refine_parameters_with_knowledge`,
`src/services/bridge_service.py` lines 54-109) -/

/-- Keys of `bridge_knowledge.COMMON_BRIDGE_TYPES`. -/
def commonBridgeTypeNames : List Str :=
  ["Beam Bridge".data, "Arch Bridge".data, "Truss Bridge".data,
   "Suspension Bridge".data, "Cable-Stayed Bridge".data]

/-- The body of `refine_parameters_with_knowledge` acting on the copied dict
(`refined = llm_extracted_params.copy()`): statement-for-statement mirror of
lines 58-106. -/
def refineDict (d0 : Dict) : Dict :=
  let bt_pref := getStrLower d0 "bridge_type_preference".data
  let specific_materials := getStrLower d0 "specific_materials".data
  let st1 : Str :=
    if isSubstr "beam".data bt_pref || isSubstr "girder".data bt_pref then
      if isSubstr "continuous".data bt_pref then
        "Continuous ".data ++ "Beam Bridge".data
      else "Beam Bridge".data
    else if isSubstr "arch".data bt_pref then "Arch Bridge".data
    else if isSubstr "cable-stayed".data bt_pref ||
        isSubstr "cable stayed".data bt_pref then "Cable-Stayed Bridge".data
    else if isSubstr "suspension".data bt_pref then "Suspension Bridge".data
    else "Beam Bridge".data
  let prestressedSeen := isSubstr "prestressed".data bt_pref ||
    isSubstr "psc".data bt_pref || isSubstr "prestressed".data specific_materials
  let st2 : Str :=
    if prestressedSeen then
      if isSubstr "concrete".data bt_pref ||
          isSubstr "concrete".data specific_materials then
        "Prestressed Concrete ".data ++
          replaceAll st1 "Beam Bridge".data "Girder Bridge".data
      else "Prestressed ".data ++ st1
    else st1
  let d1 :=
    if prestressedSeen then
      setKey d0 "material_is_prestressed_concrete".data (.boolean true)
    else d0
  let d2 := setKey d1 "standardized_bridge_type".data (.str (stripStr st2))
  let span_desc := getStrLower d2 "span_length_description".data
  let d3 :=
    if !truthyOpt (dictGet d2 "estimated_span_meters".data) &&
        !span_desc.isEmpty then
      match numThenM span_desc with
      | some v => setKey d2 "estimated_span_meters".data (.num v)
      | Option.none =>
        match firstNumber span_desc with
        | some v => setKey d2 "estimated_span_meters_raw_extract".data (.num v)
        | Option.none => d2
    else d2
  let d4 :=
    match dictGet d3 "standardized_bridge_type".data with
    | some (.str s) =>
      if !s.isEmpty && commonBridgeTypeNames.contains s then
        setKey d3 "knowledge_base_info".data (.kbInfo s)
      else d3
    | _ => d3
  d4

/-- A heap of dict objects: references are indices.  Used to state that the
refiner leaves its argument object untouched. -/
abbrev Heap := List Dict

def heapGet (h : Heap) (i : Nat) : Dict := h.getD i []

/-- `refine_parameters_with_knowledge` at the object level:
`refined = llm_extracted_params.copy()` allocates a fresh dict, and every
subsequent write in the body (`refined[...] = ...`) subscripts that fresh
reference only, so the call appends one new object and returns its reference. -/
def refine_parameters_with_knowledge (h : Heap) (arg : Nat) : Heap × Nat :=
  (h ++ [refineDict (heapGet h arg)], h.length)

/-- `calculate_beam_height` from `src/knowledge/design_rules.py` (the only
place a span/15 fallback exists); `generate_preliminary_design` never calls
it — only the superseded `design_generator.py` revision does. -/
def calculate_beam_height (span : ℚ) (beam_type : Str) : ℚ :=
  if beam_type = "simple".data then (span / 16 + span / 12) / 2
  else if beam_type = "continuous".data then (span / 25 + span / 18) / 2
  else span / 15

/-! ## Preliminary design generation
(`BridgeService.generate_preliminary_design`, lines 111-258).  The LLM call of
`analyze_user_requirements` is the external collaborator; the embedding takes
its result dict (`analyzed_params`) together with the request's
`project_conditions` / `design_constraints`.  `design_id` (a fresh UUID) and
timing statistics are not modelled. -/

/-- The `BridgeDesign` record (`src/models/data_models.py` shape used here). -/
structure BridgeDesignRec where
  bridge_type : Str
  span_lengths : List ℚ
  bridge_width : ℚ
  design_load : Val
  main_girder : Dict
  pier_design : Dict
  foundation : Dict
  materials : Dict
deriving DecidableEq

def ANALYSIS_FAILED_TYPE : Str := "Error - Analysis Failed".data

/-- Lines 138-140: constraint override, else the refined standardized type
(default "Beam Bridge"); `if not bridge_type_suggestion` re-checks truthiness
of the constraint value. -/
def resolveBridgeType (refined : Dict) (design_constraints : Option Dict) : Str :=
  let fallback : Str :=
    match dictGet refined "standardized_bridge_type".data with
    | some (.str s) => s
    | some v => pyStrOfVal v
    | Option.none => "Beam Bridge".data
  if dictTruthy design_constraints then
    match dictGet (design_constraints.getD []) "bridge_type_preference".data with
    | some v => if valTruthy v then pyStrOfVal v else fallback
    | Option.none => fallback
  else fallback

/-- Lines 143-150: the priority chain that picks the text span parsing works
on (`str(...)` of the chosen value). -/
def resolveSpanSource (refined : Dict) (design_constraints : Option Dict) :
    Option Str :=
  if dictTruthy design_constraints &&
      truthyOpt (dictGet (design_constraints.getD [])
        "span_preference_meters".data) then
    some (pyStrOfVal ((dictGet (design_constraints.getD [])
      "span_preference_meters".data).getD .pyNone))
  else if truthyOpt (dictGet refined "estimated_span_meters".data) then
    some (pyStrOfVal ((dictGet refined "estimated_span_meters".data).getD .pyNone))
  else if truthyOpt (dictGet refined "span_length_description".data) then
    some (pyStrOfVal ((dictGet refined "span_length_description".data).getD .pyNone))
  else Option.none

/-- Lines 152-166: first number in the source text, kept only if positive,
else the 50.0 m default. -/
def resolveSpanFrom (span_source_text : Option Str) : ℚ :=
  match span_source_text with
  | Option.none => 50
  | some s =>
    match firstNumber s with
    | Option.none => 50
    | some parsed_span => if parsed_span > 0 then parsed_span else 50

/-- Lines 174-177: where the lane text comes from (already lowercased). -/
def resolveRoadLanesInfo (refined : Dict) (project_conditions : Option Dict) :
    Option Str :=
  if dictTruthy project_conditions &&
      truthyOpt (dictGet (project_conditions.getD []) "road_lanes".data) then
    some (toLowerStr (pyStrOfVal ((dictGet (project_conditions.getD [])
      "road_lanes".data).getD (.str []))))
  else if truthyOpt (dictGet refined "road_lanes_description".data) then
    some (toLowerStr (pyStrOfVal
      ((dictGet refined "road_lanes_description".data).getD (.str []))))
  else Option.none

/-- Lines 181-184: the first-match-wins lane-count dispatch. -/
def parseNumLanes (road_lanes_info : Str) : Nat :=
  if isSubstr "四".data road_lanes_info || isSubstr "4".data road_lanes_info ||
      isSubstr "four".data road_lanes_info then 4
  else if isSubstr "六".data road_lanes_info || isSubstr "6".data road_lanes_info ||
      isSubstr "six".data road_lanes_info then 6
  else if isSubstr "八".data road_lanes_info || isSubstr "8".data road_lanes_info ||
      isSubstr "eight".data road_lanes_info then 8
  else if isSubstr "双".data road_lanes_info || isSubstr "两".data road_lanes_info ||
      isSubstr "2".data road_lanes_info || isSubstr "two".data road_lanes_info then 2
  else 0

/-- `refined_params.get("assumed_bridge_width", default_bridge_width)`: the
12.0 m default when the key is absent.  A non-numeric hint would go through
pydantic float coercion, not modelled; it is collapsed to the default. -/
def assumedWidth (refined : Dict) : ℚ :=
  match dictGet refined "assumed_bridge_width".data with
  | some (.num x) => x
  | some _ => 12
  | Option.none => 12

/-- Lines 179-198: bridge width from the lane text, with `lane_width_m = 3.5`
and `shoulder_median_width_m = 3.0 if num_lanes >= 4 else 1.5`, falling back
to the assumed width. -/
def resolveWidth (road_lanes_info : Option Str) (refined : Dict) : ℚ :=
  match road_lanes_info with
  | some info =>
    if !info.isEmpty then
      let num_lanes := parseNumLanes info
      if num_lanes > 0 then
        (num_lanes : ℚ) * (7 / 2) + (if 4 ≤ num_lanes then 3 else 3 / 2)
      else assumedWidth refined
    else assumedWidth refined
  | Option.none => assumedWidth refined

/-- Lines 202-218: main girder type string and the materials dict. -/
def girderTypeAndMaterials (refined : Dict) (bridge_type_suggestion : Str) :
    Str × Dict :=
  let materials0 : Dict :=
    [("concrete_grade".data, .str "C40/50".data),
     ("steel_reinforcement".data, .str "Fe500D".data)]
  let specific_materials := getStrLower refined "specific_materials".data
  if truthyOpt (dictGet refined "material_is_prestressed_concrete".data) then
    let m := setKey materials0 "prestressing_steel".data
      (.str "High-tensile strands Y1860S7".data)
    let t : Str :=
      if isSubstr "continuous".data (toLowerStr bridge_type_suggestion) then
        "Prestressed Concrete Continuous Girder".data
      else "Prestressed Concrete I-Girder".data
    (t, m)
  else if isSubstr "steel".data (toLowerStr bridge_type_suggestion) ||
      isSubstr "steel".data specific_materials then
    let m := setKey materials0 "structural_steel_grade".data (.str "Q355".data)
    let m :=
      if dictGet m "concrete_grade".data ≠ Option.none &&
          !isSubstr "deck".data specific_materials then
        delKey m "concrete_grade".data
      else m
    ("Steel I-Girder".data, m)
  else ("I-Girder".data, materials0)

/-- Line 228: `round(span_length / 18, 2) if span_length > 0 else 2.0`. -/
def girderDepth (span_length : ℚ) : ℚ :=
  if span_length > 0 then pyRound2 (span_length / 18) else 2

/-- `BridgeService.generate_preliminary_design`, success and analysis-error
paths (the generic `except Exception` fallback at lines 248-258 is
unreachable in this embedding: every embedded step is total). -/
def generate_preliminary_design (analyzed_params : Dict)
    (project_conditions design_constraints : Option Dict) : BridgeDesignRec :=
  if truthyOpt (dictGet analyzed_params "error".data) then
    { bridge_type := ANALYSIS_FAILED_TYPE
      span_lengths := [0]
      bridge_width := 0
      design_load := .str "N/A".data
      main_girder :=
        [("error".data, .str "Analysis failed".data),
         ("details".data, (dictGet analyzed_params "details".data).getD .pyNone)]
      pier_design := [("error".data, .str "Analysis failed".data)]
      foundation := [("error".data, .str "Analysis failed".data)]
      materials := [("error".data, .str "Analysis failed".data)] }
  else
    let refined := refineDict analyzed_params
    let bridge_type_suggestion := resolveBridgeType refined design_constraints
    let span_length := resolveSpanFrom (resolveSpanSource refined design_constraints)
    let estimated_bridge_width :=
      resolveWidth (resolveRoadLanesInfo refined project_conditions) refined
    let gm := girderTypeAndMaterials refined bridge_type_suggestion
    let main_girder0 : Dict :=
      [("type".data, .str gm.1), ("depth_m".data, .num (girderDepth span_length))]
    let main_girder :=
      if dictTruthy project_conditions then
        setKey main_girder0 "project_notes".data (.note 0)
      else main_girder0
    let pier_design0 : Dict :=
      [("type".data, .str "Reinforced Concrete Column".data),
       ("shape".data, .str "Circular".data)]
    let pier_design :=
      if dictTruthy design_constraints then
        setKey pier_design0 "constraints_notes".data (.note 1)
      else pier_design0
    { bridge_type := bridge_type_suggestion
      span_lengths := [span_length]
      bridge_width := estimated_bridge_width
      design_load := (dictGet refined "load_requirements".data).getD
        (.str "Standard Highway Load".data)
      main_girder := main_girder
      pier_design := pier_design
      foundation :=
        [("type".data, .str "Spread Footing or Piles (site dependent)".data)]
      materials := gm.2 }

/-! ## SceneComposer pier placement.
Modelled from the spec: `generate_scene_data` — the scene-composition method
`app.py` line 136 invokes on the `ThreeJSGenerator` instance — is absent from
the source tree (only its caller ships), so the pier heuristics are taken from
spec §4.4: `numPiers = 2 if span > 25 else 0` unless overridden, two end piers
at `x = ∓0.45·span`, intermediate piers at `-0.45·span + k·(0.9·span)/(numPiers-1)`,
pier height `max(span × 0.15, 8.0)`, pier top at the girder underside, one
foundation per pier. -/

/-- Modelled from the spec: pier count heuristic with the optional
`numPiersVisualize` override. -/
def numPiersFor (span : ℚ) (override : Option Nat) : Nat :=
  match override with
  | some n => n
  | Option.none => if span > 25 then 2 else 0

/-- Modelled from the spec: pier x-coordinates; the interpolation divides by
`numPiers - 1`, the one spot that could raise. -/
def pierXs (span : ℚ) (n : Nat) : Except PyError (List ℚ) :=
  match n with
  | 0 => .ok []
  | 1 => .ok [0]
  | _ =>
    match qdiv (9 / 10 * span) ((n : ℚ) - 1) with
    | .error e => .error e
    | .ok step =>
      .ok ((List.range n).map (fun k => -(9 / 20) * span + (k : ℚ) * step))

/-- Modelled from the spec: the scene data relevant to pier placement. -/
structure SceneDesc where
  numPiers : Nat
  pierPositions : List (ℚ × ℚ)   -- (x, y) per pier
  numFoundations : Nat
deriving DecidableEq

/-- Modelled from the spec: scene composition for a design record (pier and
foundation placement; girder replication and camera fit are out of the claims'
scope and omitted). -/
def composeScene (span girder_depth : ℚ) (override : Option Nat) :
    Except PyError SceneDesc :=
  let n := numPiersFor span override
  match pierXs span n with
  | .error e => .error e
  | .ok xs =>
    let pier_height := max (span * (3 / 20)) 8
    let y := -(girder_depth / 2) - pier_height / 2
    .ok { numPiers := n, pierPositions := xs.map (fun x => (x, y)),
          numFoundations := n }

/-! ## Helper lemmas -/

theorem dictGet_setKey_ne (d : Dict) (k k' : Str) (v : Val) (h : k ≠ k') :
    dictGet (setKey d k v) k' = dictGet d k' := by
  induction d with
  | nil => simp [setKey, dictGet, h]
  | cons kv rest ih =>
    obtain ⟨a, b⟩ := kv
    by_cases hk : a = k
    · subst hk
      simp [setKey, dictGet, h]
    · simp [setKey, dictGet, hk, ih]

theorem resolveSpanFrom_pos (o : Option Str) : 0 < resolveSpanFrom o := by
  unfold resolveSpanFrom
  cases o with
  | none => norm_num
  | some s =>
    cases hf : firstNumber s with
    | none => simp only [hf]; norm_num
    | some v =>
      simp only [hf]
      by_cases hv : v > 0
      · simpa [hv] using hv
      · simp only [hv, if_false]; norm_num

theorem parseNumLanes_pos_ne_nil (info : Str) (h : 0 < parseNumLanes info) :
    info.isEmpty = false := by
  cases info with
  | nil => exact absurd h (by decide)
  | cons c rest => rfl

theorem create_box_girder_inner (L W H t : ℚ) :
    (create_box_girder L W H t).inner =
      if W - 2 * t ≤ 0 ∨ H - 2 * t ≤ 0 then Option.none
      else some ⟨.BoxGeometry, [W - 2 * t, H - 2 * t, L]⟩ := rfl

/-! ## Claim theorems -/

/-- C6: for all positive `L`, `W`, `H`, `t`, `create_box_girder` returns an
outer box with dimensions `[W, H, L]`; the inner box is `null` exactly when
`t ≥ W/2` or `t ≥ H/2`, and otherwise is a box `[W − 2t, H − 2t, L]`. -/
theorem C6_box_girder (L W H t : ℚ)
    (hL : 0 < L) (hW : 0 < W) (hH : 0 < H) (ht : 0 < t) :
    (create_box_girder L W H t).outer = ⟨.BoxGeometry, [W, H, L]⟩ ∧
    ((create_box_girder L W H t).inner = Option.none ↔ (W / 2 ≤ t ∨ H / 2 ≤ t)) ∧
    (t < W / 2 → t < H / 2 →
      (create_box_girder L W H t).inner =
        some ⟨.BoxGeometry, [W - 2 * t, H - 2 * t, L]⟩) := by
  refine ⟨rfl, ?_, ?_⟩
  · rw [create_box_girder_inner]
    by_cases hcond : W - 2 * t ≤ 0 ∨ H - 2 * t ≤ 0
    · rw [if_pos hcond]
      simp only [true_iff]
      rcases hcond with h | h
      · exact Or.inl (by linarith)
      · exact Or.inr (by linarith)
    · rw [if_neg hcond]
      constructor
      · intro hcontra; exact absurd hcontra (by simp)
      · intro hle
        exfalso
        rcases hle with h | h
        · exact hcond (Or.inl (by linarith))
        · exact hcond (Or.inr (by linarith))
  · intro h1 h2
    rw [create_box_girder_inner, if_neg]
    push_neg
    constructor <;> linarith

/-- C6 witness: concrete instantiation at `L = 50, W = 5, H = 3, t = 0.3`. -/
theorem C6_box_girder_witness :
    (0 : ℚ) < 50 ∧ (0 : ℚ) < 5 ∧ (0 : ℚ) < 3 ∧ (0 : ℚ) < 3 / 10 ∧
    ((create_box_girder 50 5 3 (3 / 10)).outer = ⟨.BoxGeometry, [5, 3, 50]⟩ ∧
     ((create_box_girder 50 5 3 (3 / 10)).inner = Option.none ↔
       ((5 : ℚ) / 2 ≤ 3 / 10 ∨ (3 : ℚ) / 2 ≤ 3 / 10)) ∧
     ((3 : ℚ) / 10 < 5 / 2 → (3 : ℚ) / 10 < 3 / 2 →
       (create_box_girder 50 5 3 (3 / 10)).inner =
         some ⟨.BoxGeometry, [5 - 2 * (3 / 10), 3 - 2 * (3 / 10), 50]⟩)) :=
  ⟨by norm_num, by norm_num, by norm_num, by norm_num,
   C6_box_girder 50 5 3 (3 / 10) (by norm_num) (by norm_num) (by norm_num)
     (by norm_num)⟩

/-- C7: any pier type other than "cylindrical" and "rectangular" yields (with
no exception) a unit-cross-section box `[1, height, 1]` carrying an `error`
annotation. -/
theorem C7_unknown_pier (pier_type : Str) (height : ℚ) (cs : CrossSection)
    (h1 : pier_type ≠ "cylindrical".data) (h2 : pier_type ≠ "rectangular".data) :
    (create_pier pier_type height cs).shape = ⟨.BoxGeometry, [1, height, 1]⟩ ∧
    (create_pier pier_type height cs).error = some (.unsupported pier_type) := by
  unfold create_pier
  rw [if_neg h1, if_neg h2]
  exact ⟨rfl, rfl⟩

/-- C7 witness: the "octagonal" pier of the source's own example usage. -/
theorem C7_unknown_pier_witness :
    "octagonal".data ≠ "cylindrical".data ∧
    "octagonal".data ≠ "rectangular".data ∧
    ((create_pier "octagonal".data 9 {}).shape = ⟨.BoxGeometry, [1, 9, 1]⟩ ∧
     (create_pier "octagonal".data 9 {}).error =
       some (.unsupported "octagonal".data)) :=
  ⟨by decide, by decide,
   C7_unknown_pier "octagonal".data 9 {} (by decide) (by decide)⟩

/-- C10: called directly with a non-positive span or depth, the span-to-depth
validator does not skip: it returns `passed = false` with the message
"Span and depth must be positive values.", for every bridge-type string. -/
theorem C10_nonpositive_fails (span depth : ℚ) (bridge_type : Str)
    (h : ¬span > 0 ∨ ¬depth > 0) :
    validate_span_to_depth_ratio span depth bridge_type =
      .ok (false, .mustBePositive) := by
  unfold validate_span_to_depth_ratio
  rw [if_pos h]

/-- C10 witness: the zeroed sentinel numbers against the sentinel type. -/
theorem C10_nonpositive_fails_witness :
    (¬(0 : ℚ) > 0 ∨ ¬(0 : ℚ) > 0) ∧
    validate_span_to_depth_ratio 0 0 ANALYSIS_FAILED_TYPE =
      .ok (false, .mustBePositive) :=
  ⟨Or.inl (by norm_num),
   C10_nonpositive_fails 0 0 ANALYSIS_FAILED_TYPE (Or.inl (by norm_num))⟩

/-- C4 counterexample: the claim's range table says steel_beam spans pass for
ratios up to 30, but at span 28, depth 1 (ratio 28, inside the claimed
[15, 30]) the validator fails the check: the table in
`bridge_knowledge.DESIGN_PARAMETER_RANGES` is (15, 25) for steel_beam. -/
theorem C4_range_table_counterexample :
    validate_span_to_depth_ratio 28 1 "Steel Beam Bridge".data =
      .ok (false, .outsideRange 28 15 25 .steel_beam) ∧
    (15 : ℚ) ≤ 28 / 1 ∧ (28 : ℚ) / 1 ≤ 30 := by
  refine ⟨?_, by norm_num, by norm_num⟩
  have hdiv : qdiv 28 1 = .ok (28 / 1) := by
    unfold qdiv
    rw [if_neg (by norm_num)]
  have hk : typeKeyFor "Steel Beam Bridge".data = some .steel_beam := by decide
  unfold validate_span_to_depth_ratio
  rw [if_neg (by norm_num)]
  simp only [hdiv, hk, span_to_depth_range]
  rw [if_neg (by norm_num)]
  norm_num

/-- C4 (amended): for positive span and depth the check returns normally, and
passes exactly when the ratio lies in the range the knowledge base actually
holds — prestressed_concrete_beam (18, 30), steel_beam (15, 25),
concrete_beam (10, 20), truss (8, 12); types whose key is missing from the
table (steel_truss, concrete_arch) or that match no key are skipped with
`passed = true`. -/
theorem C4_span_to_depth_check (span depth : ℚ) (bridge_type : Str)
    (hs : 0 < span) (hd : 0 < depth) :
    ∃ b m, validate_span_to_depth_ratio span depth bridge_type = .ok (b, m) ∧
      (b = true ↔
        match typeKeyFor bridge_type with
        | some key =>
          match span_to_depth_range key with
          | some (lo, hi) => lo ≤ span / depth ∧ span / depth ≤ hi
          | Option.none => True
        | Option.none => True) := by
  unfold validate_span_to_depth_ratio
  have hcond : ¬(¬span > 0 ∨ ¬depth > 0) := by
    push_neg
    exact ⟨hs, hd⟩
  rw [if_neg hcond]
  have hdiv : qdiv span depth = .ok (span / depth) := by
    unfold qdiv
    rw [if_neg (by positivity)]
  simp only [hdiv]
  cases hk : typeKeyFor bridge_type with
  | none =>
    simp only [hk]
    exact ⟨true, _, rfl, by simp⟩
  | some key =>
    simp only [hk]
    cases hr : span_to_depth_range key with
    | none =>
      simp only [hr]
      exact ⟨true, _, rfl, by simp⟩
    | some lohi =>
      obtain ⟨lo, hi⟩ := lohi
      simp only [hr]
      by_cases hin : lo ≤ span / depth ∧ span / depth ≤ hi
      · rw [if_pos hin]
        exact ⟨true, _, rfl, by simpa using hin⟩
      · rw [if_neg hin]
        exact ⟨false, _, rfl, by simpa using hin⟩

/-- C4 witness: span 60, depth 3, "Steel Beam Bridge" — ratio 20 lies in the
actual (15, 25) steel_beam range and the check passes. -/
theorem C4_span_to_depth_check_witness :
    (0 : ℚ) < 60 ∧ (0 : ℚ) < 3 ∧
    (∃ b m, validate_span_to_depth_ratio 60 3 "Steel Beam Bridge".data =
        .ok (b, m) ∧
      (b = true ↔
        match typeKeyFor "Steel Beam Bridge".data with
        | some key =>
          match span_to_depth_range key with
          | some (lo, hi) => lo ≤ (60 : ℚ) / 3 ∧ (60 : ℚ) / 3 ≤ hi
          | Option.none => True
        | Option.none => True)) :=
  ⟨by norm_num, by norm_num,
   C4_span_to_depth_check 60 3 "Steel Beam Bridge".data (by norm_num)
     (by norm_num)⟩

/-- C5 (spec-modelled scene composition): 2 piers exactly when span > 25
(strictly: span 25.0 gives 0 piers, 25.01 gives 2), the two end piers sitting
at x = ∓0.45·span. -/
theorem C5_pier_count_and_placement (span girder_depth : ℚ) :
    numPiersFor span Option.none = (if 25 < span then 2 else 0) ∧
    numPiersFor 25 Option.none = 0 ∧
    numPiersFor (2501 / 100) Option.none = 2 ∧
    pierXs span 2 = .ok [-(9 / 20) * span, 9 / 20 * span] ∧
    (25 < span →
      ∃ sc, composeScene span girder_depth Option.none = .ok sc ∧
        sc.numPiers = 2 ∧
        sc.pierPositions.map Prod.fst = [-(9 / 20) * span, 9 / 20 * span]) := by
  have h1 : qdiv (9 / 10 * span) (((2 : Nat) : ℚ) - 1) = .ok (9 / 10 * span) := by
    unfold qdiv
    rw [if_neg (by norm_num)]
    norm_num
  have hxs : pierXs span 2 = .ok [-(9 / 20) * span, 9 / 20 * span] := by
    have hunfold : pierXs span 2 =
        match qdiv (9 / 10 * span) (((2 : Nat) : ℚ) - 1) with
        | .error e => .error e
        | .ok step =>
          .ok ((List.range 2).map
            (fun k => -(9 / 20) * span + (k : ℚ) * step)) := rfl
    rw [hunfold, h1]
    show Except.ok ((List.range 2).map
        (fun k => -(9 / 20) * span + (k : ℚ) * (9 / 10 * span))) =
      Except.ok [-(9 / 20) * span, 9 / 20 * span]
    have hm : (List.range 2).map
        (fun k => -(9 / 20) * span + (k : ℚ) * (9 / 10 * span)) =
        [-(9 / 20) * span + ((0 : ℕ) : ℚ) * (9 / 10 * span),
         -(9 / 20) * span + ((1 : ℕ) : ℚ) * (9 / 10 * span)] := rfl
    rw [hm]
    have e1 : -(9 / 20) * span + ((0 : ℕ) : ℚ) * (9 / 10 * span) =
        -(9 / 20) * span := by push_cast; ring
    have e2 : -(9 / 20) * span + ((1 : ℕ) : ℚ) * (9 / 10 * span) =
        9 / 20 * span := by push_cast; ring
    rw [e1, e2]
  refine ⟨rfl, ?_, ?_, hxs, ?_⟩
  · simp only [numPiersFor]
    rw [if_neg (by norm_num)]
  · simp only [numPiersFor]
    rw [if_pos (by norm_num)]
  · intro hgt
    have hn : numPiersFor span Option.none = 2 := by
      simp only [numPiersFor]
      rw [if_pos hgt]
    refine ⟨⟨2,
      [(-(9 / 20) * span, -(girder_depth / 2) - max (span * (3 / 20)) 8 / 2),
       (9 / 20 * span, -(girder_depth / 2) - max (span * (3 / 20)) 8 / 2)],
      2⟩, ?_, rfl, by simp⟩
    simp only [composeScene, hn, hxs]
    rfl

/-- C5 witness: span 30 exceeds the threshold; piers land at x = ∓13.5. -/
theorem C5_pier_count_and_placement_witness :
    (25 : ℚ) < 30 ∧
    (∃ sc, composeScene 30 2 Option.none = .ok sc ∧ sc.numPiers = 2 ∧
      sc.pierPositions.map Prod.fst = [-(9 / 20) * 30, 9 / 20 * 30]) :=
  ⟨by norm_num,
   (C5_pier_count_and_placement 30 2).2.2.2.2 (by norm_num)⟩

/-- C8: at parsed seismic level ≥ 7, a design-parameter dict whose explicit
intensity, foundation and other-detail fields are all falsy and whose
beam-to-pier connection text triggers none of the seismic/damper/isolation
keywords makes the seismic check fail. -/
theorem C8_high_intensity_fails (design_params design_materials : Dict)
    (istr : Str)
    (hlevel : 7 ≤ parseSeismicLevel istr) (hne : istr.isEmpty = false)
    (h1 : truthyOpt (dictGet design_params "seismic_design_intensity".data) = false)
    (h2 : truthyOpt
      (dictGet design_params "seismic_considerations_foundation".data) = false)
    (h3 : truthyOpt (dictGet design_params "other_seismic_details".data) = false)
    (h4 : (match dictGet design_params "beam_to_pier_connection".data with
           | some v =>
             seismicTerms.any (fun t => isSubstr t (toLowerStr (pyStrOfVal v)))
           | Option.none => false) = false) :
    (validate_seismic_requirements design_params design_materials
      (some istr)).1 = false := by
  have hm : mentionedSeismicDesign design_params = false := by
    unfold mentionedSeismicDesign
    rw [h1, h2, h3, h4]
    rfl
  unfold validate_seismic_requirements
  simp only [hne, Bool.false_eq_true, if_false, hm, Bool.not_false, if_true]
  rw [if_pos hlevel]

/-- C8 witness: intensity "8度" with only a plain (non-seismic) bearing note
under beam_to_pier_connection fails the check. -/
theorem C8_high_intensity_fails_witness :
    7 ≤ parseSeismicLevel "8度".data ∧
    (validate_seismic_requirements
      [("beam_to_pier_connection".data, .str "普通板式橡胶支座".data)] []
      (some "8度".data)).1 = false :=
  ⟨by decide,
   C8_high_intensity_fails
     [("beam_to_pier_connection".data, .str "普通板式橡胶支座".data)] []
     "8度".data (by decide) (by decide) (by decide) (by decide) (by decide)
     (by decide)⟩

/-- C9: the refiner never mutates its argument object — after the call the
caller's dict is unchanged on the heap, and every addition (standardized
type, prestressed flag, ...) lives on the freshly allocated copy. -/
theorem C9_refine_does_not_mutate (h : Heap) (arg : Nat)
    (harg : arg < h.length) :
    heapGet (refine_parameters_with_knowledge h arg).1 arg = heapGet h arg ∧
    (refine_parameters_with_knowledge h arg).2 ≠ arg ∧
    heapGet (refine_parameters_with_knowledge h arg).1
        (refine_parameters_with_knowledge h arg).2 =
      refineDict (heapGet h arg) := by
  unfold refine_parameters_with_knowledge heapGet
  dsimp only
  refine ⟨?_, ?_, ?_⟩
  · rw [List.getD_eq_getElem?_getD, List.getD_eq_getElem?_getD,
      List.getElem?_append_left harg]
  · omega
  · rw [List.getD_eq_getElem?_getD, List.getElem?_append_right (le_refl _)]
    simp

/-- C9 witness: a one-object heap; the caller's dict at reference 0 is
untouched while the copy at the fresh reference carries the additions. -/
theorem C9_refine_does_not_mutate_witness :
    0 < ([[("bridge_type_preference".data, Val.str "girder".data)]] : Heap).length ∧
    (heapGet (refine_parameters_with_knowledge
        [[("bridge_type_preference".data, Val.str "girder".data)]] 0).1 0 =
      heapGet [[("bridge_type_preference".data, Val.str "girder".data)]] 0 ∧
    (refine_parameters_with_knowledge
        [[("bridge_type_preference".data, Val.str "girder".data)]] 0).2 ≠ 0 ∧
    heapGet (refine_parameters_with_knowledge
        [[("bridge_type_preference".data, Val.str "girder".data)]] 0).1
        (refine_parameters_with_knowledge
          [[("bridge_type_preference".data, Val.str "girder".data)]] 0).2 =
      refineDict (heapGet
        [[("bridge_type_preference".data, Val.str "girder".data)]] 0)) :=
  ⟨by decide,
   C9_refine_does_not_mutate
     [[("bridge_type_preference".data, Val.str "girder".data)]] 0 (by decide)⟩

/-- C1 counterexample: a design with a non-continuous bridge type ("Beam
Bridge", resolved span 50 m) still gets girder depth round(50/18, 2) = 2.78,
not the claimed span/15 = 3.33… — the generator applies round(span/18, 2)
unconditionally (bridge_service.py line 228). -/
theorem C1_girder_depth_counterexample :
    (generate_preliminary_design
      [("bridge_type_preference".data, Val.str "girder".data),
       ("estimated_span_meters".data, Val.num 50)]
      Option.none Option.none).bridge_type = "Beam Bridge".data ∧
    isSubstr "continuous".data (toLowerStr
      (generate_preliminary_design
        [("bridge_type_preference".data, Val.str "girder".data),
         ("estimated_span_meters".data, Val.num 50)]
        Option.none Option.none).bridge_type) = false ∧
    (generate_preliminary_design
      [("bridge_type_preference".data, Val.str "girder".data),
       ("estimated_span_meters".data, Val.num 50)]
      Option.none Option.none).span_lengths = [50] ∧
    dictGet (generate_preliminary_design
      [("bridge_type_preference".data, Val.str "girder".data),
       ("estimated_span_meters".data, Val.num 50)]
      Option.none Option.none).main_girder "depth_m".data =
      some (.num (139 / 50)) ∧
    (139 / 50 : ℚ) ≠ 50 / 15 := by
  have herr : truthyOpt (dictGet
      [("bridge_type_preference".data, Val.str "girder".data),
       ("estimated_span_meters".data, Val.num 50)] "error".data) = false := by
    decide
  have hbt : resolveBridgeType (refineDict
      [("bridge_type_preference".data, Val.str "girder".data),
       ("estimated_span_meters".data, Val.num 50)]) Option.none =
      "Beam Bridge".data := by decide
  have hspan : resolveSpanFrom (resolveSpanSource (refineDict
      [("bridge_type_preference".data, Val.str "girder".data),
       ("estimated_span_meters".data, Val.num 50)]) Option.none) = 50 := by
    decide
  have hgd : girderDepth 50 = 139 / 50 := by
    unfold girderDepth pyRound2 roundHalfEven
    rw [if_pos (by norm_num)]
    norm_num
  have hno : dictTruthy (Option.none : Option Dict) = false := rfl
  simp only [generate_preliminary_design, herr, Bool.false_eq_true, if_false,
    hbt, hspan, hgd, hno]
  exact ⟨by simp, by decide, by simp, by simp [dictGet], by norm_num⟩

/-- C1 (amended): in every design generated from a non-error analysis the
resolved span is positive and the main girder depth equals
round(span/18, 2) — for every bridge type, continuous or not; the span/15
divisor is never used. -/
theorem C1_girder_depth (analyzed_params : Dict) (pc dc : Option Dict)
    (h : truthyOpt (dictGet analyzed_params "error".data) = false) :
    0 < (generate_preliminary_design analyzed_params pc dc).span_lengths.headI ∧
    dictGet (generate_preliminary_design analyzed_params pc dc).main_girder
        "depth_m".data =
      some (.num (pyRound2
        ((generate_preliminary_design analyzed_params pc dc).span_lengths.headI
          / 18))) := by
  have hgd : girderDepth (resolveSpanFrom
      (resolveSpanSource (refineDict analyzed_params) dc)) =
      pyRound2 (resolveSpanFrom
        (resolveSpanSource (refineDict analyzed_params) dc) / 18) := by
    unfold girderDepth
    rw [if_pos (resolveSpanFrom_pos _)]
  simp only [generate_preliminary_design, h, Bool.false_eq_true, if_false,
    List.headI, hgd]
  refine ⟨resolveSpanFrom_pos _, ?_⟩
  by_cases hpc : dictTruthy pc = true
  · rw [if_pos hpc, dictGet_setKey_ne _ _ _ _ (by decide)]
    simp [dictGet]
  · rw [if_neg hpc]
    simp [dictGet]

/-- C1 witness: the amended theorem applied to the counterexample's input
(span 50, non-continuous beam type). -/
theorem C1_girder_depth_witness :
    truthyOpt (dictGet
      [("bridge_type_preference".data, Val.str "girder".data),
       ("estimated_span_meters".data, Val.num 50)] "error".data) = false ∧
    (0 < (generate_preliminary_design
        [("bridge_type_preference".data, Val.str "girder".data),
         ("estimated_span_meters".data, Val.num 50)]
        Option.none Option.none).span_lengths.headI ∧
      dictGet (generate_preliminary_design
        [("bridge_type_preference".data, Val.str "girder".data),
         ("estimated_span_meters".data, Val.num 50)]
        Option.none Option.none).main_girder "depth_m".data =
        some (.num (pyRound2
          ((generate_preliminary_design
            [("bridge_type_preference".data, Val.str "girder".data),
             ("estimated_span_meters".data, Val.num 50)]
            Option.none Option.none).span_lengths.headI / 18)))) :=
  ⟨by decide,
   C1_girder_depth
     [("bridge_type_preference".data, Val.str "girder".data),
      ("estimated_span_meters".data, Val.num 50)]
     Option.none Option.none (by decide)⟩

/-- C2: lane count resolves by first-match-wins branches in order 4, 6, 8, 2
over Chinese numerals, Arabic digits and English words; a resolved positive
lane count gives width numLanes×3.5 + (3.0 if numLanes ≥ 4 else 1.5) — 17.0 m
for 4 lanes, 8.5 m for 2 — and an unresolved count falls back to the
assumed-width hint, defaulting to 12.0 m. -/
theorem C2_lane_width (info : Str) (refined : Dict) :
    (0 < parseNumLanes info →
      resolveWidth (some info) refined =
        (parseNumLanes info : ℚ) * (7 / 2) +
          (if 4 ≤ parseNumLanes info then 3 else 3 / 2)) ∧
    (parseNumLanes info = 4 → resolveWidth (some info) refined = 17) ∧
    (parseNumLanes info = 2 → resolveWidth (some info) refined = 17 / 2) ∧
    (parseNumLanes info = 0 →
      resolveWidth (some info) refined = assumedWidth refined) ∧
    resolveWidth Option.none refined = assumedWidth refined ∧
    (dictGet refined "assumed_bridge_width".data = Option.none →
      assumedWidth refined = 12) ∧
    ((isSubstr "四".data info || isSubstr "4".data info ||
        isSubstr "four".data info) = true → parseNumLanes info = 4) ∧
    ((isSubstr "四".data info || isSubstr "4".data info ||
        isSubstr "four".data info) = false →
      (isSubstr "六".data info || isSubstr "6".data info ||
        isSubstr "six".data info) = true → parseNumLanes info = 6) ∧
    ((isSubstr "四".data info || isSubstr "4".data info ||
        isSubstr "four".data info) = false →
      (isSubstr "六".data info || isSubstr "6".data info ||
        isSubstr "six".data info) = false →
      (isSubstr "八".data info || isSubstr "8".data info ||
        isSubstr "eight".data info) = true → parseNumLanes info = 8) ∧
    ((isSubstr "四".data info || isSubstr "4".data info ||
        isSubstr "four".data info) = false →
      (isSubstr "六".data info || isSubstr "6".data info ||
        isSubstr "six".data info) = false →
      (isSubstr "八".data info || isSubstr "8".data info ||
        isSubstr "eight".data info) = false →
      (isSubstr "双".data info || isSubstr "两".data info ||
        isSubstr "2".data info || isSubstr "two".data info) = true →
      parseNumLanes info = 2) := by
  have wform : 0 < parseNumLanes info →
      resolveWidth (some info) refined =
        (parseNumLanes info : ℚ) * (7 / 2) +
          (if 4 ≤ parseNumLanes info then 3 else 3 / 2) := by
    intro hpos
    have hne := parseNumLanes_pos_ne_nil info hpos
    simp only [resolveWidth, hne, Bool.not_false, if_true]
    rw [if_pos hpos]
  refine ⟨wform, ?_, ?_, ?_, rfl, ?_, ?_, ?_, ?_, ?_⟩
  · intro h4
    rw [wform (by omega), h4]
    norm_num
  · intro h2
    rw [wform (by omega), h2]
    norm_num
  · intro h0
    by_cases hni : info.isEmpty = true
    · simp only [resolveWidth, hni, Bool.not_true, Bool.false_eq_true, if_false]
    · have hni' : info.isEmpty = false := by
        exact Bool.eq_false_iff.mpr hni
      simp only [resolveWidth, hni', Bool.not_false, if_true, h0]
      rfl
  · intro hnone
    unfold assumedWidth
    rw [hnone]
  · intro c4
    unfold parseNumLanes
    rw [c4]
    rfl
  · intro c4 c6
    unfold parseNumLanes
    rw [c4, c6]
    rfl
  · intro c4 c6 c8
    unfold parseNumLanes
    rw [c4, c6, c8]
    rfl
  · intro c4 c6 c8 c2
    unfold parseNumLanes
    rw [c4, c6, c8, c2]
    rfl

/-- C2 witness: 双向四车道 resolves to 4 lanes (17.0 m), "two lanes" to 2
lanes (8.5 m), and the empty hint dict falls back to 12.0 m. -/
theorem C2_lane_width_witness :
    parseNumLanes "双向四车道".data = 4 ∧
    resolveWidth (some "双向四车道".data) [] = 17 ∧
    parseNumLanes "two lanes".data = 2 ∧
    resolveWidth (some "two lanes".data) [] = 17 / 2 ∧
    resolveWidth Option.none [] = 12 := by
  have t1 := C2_lane_width "双向四车道".data []
  have t2 := C2_lane_width "two lanes".data []
  have h4 : parseNumLanes "双向四车道".data = 4 :=
    t1.2.2.2.2.2.2.1 (by decide)
  have h2 : parseNumLanes "two lanes".data = 2 :=
    t2.2.2.2.2.2.2.2.2.2 (by decide) (by decide) (by decide) (by decide)
  refine ⟨h4, t1.2.1 h4, h2, t2.2.2.1 h2, ?_⟩
  rw [t1.2.2.2.2.1]
  exact t1.2.2.2.2.2.1 rfl

/-- C3: an error-tagged analysis produces (without raising) the sentinel
design — type "Error - Analysis Failed", span lengths [0], width 0 — and the
sentinel's numbers pass through the span-to-depth validation and the
scene-composition stage returning normally (no embedded exception). -/
theorem C3_error_sentinel (analyzed_params : Dict) (pc dc : Option Dict)
    (h : truthyOpt (dictGet analyzed_params "error".data) = true) :
    (generate_preliminary_design analyzed_params pc dc).bridge_type =
      "Error - Analysis Failed".data ∧
    (generate_preliminary_design analyzed_params pc dc).span_lengths = [0] ∧
    (generate_preliminary_design analyzed_params pc dc).bridge_width = 0 ∧
    validate_span_to_depth_ratio
      (generate_preliminary_design analyzed_params pc dc).span_lengths.headI 0
      (generate_preliminary_design analyzed_params pc dc).bridge_type =
      .ok (false, .mustBePositive) ∧
    composeScene
      (generate_preliminary_design analyzed_params pc dc).span_lengths.headI 0
      Option.none = .ok ⟨0, [], 0⟩ := by
  have hg : generate_preliminary_design analyzed_params pc dc =
      { bridge_type := ANALYSIS_FAILED_TYPE
        span_lengths := [0]
        bridge_width := 0
        design_load := .str "N/A".data
        main_girder :=
          [("error".data, .str "Analysis failed".data),
           ("details".data,
             (dictGet analyzed_params "details".data).getD .pyNone)]
        pier_design := [("error".data, .str "Analysis failed".data)]
        foundation := [("error".data, .str "Analysis failed".data)]
        materials := [("error".data, .str "Analysis failed".data)] } := by
    unfold generate_preliminary_design
    rw [if_pos h]
  rw [hg]
  refine ⟨rfl, rfl, rfl, ?_, ?_⟩
  · show validate_span_to_depth_ratio 0 0 ANALYSIS_FAILED_TYPE =
      .ok (false, .mustBePositive)
    unfold validate_span_to_depth_ratio
    rw [if_pos (Or.inl (by norm_num))]
  · show composeScene 0 0 Option.none = .ok ⟨0, [], 0⟩
    simp only [composeScene, numPiersFor]
    rw [if_neg (by norm_num)]
    rfl

/-- C3 witness: the sentinel path at a concrete error-tagged analysis result. -/
theorem C3_error_sentinel_witness :
    truthyOpt (dictGet
      [("error".data,
        Val.str "Failed to extract parameters using LLM.".data)]
      "error".data) = true ∧
    ((generate_preliminary_design
        [("error".data,
          Val.str "Failed to extract parameters using LLM.".data)]
        Option.none Option.none).bridge_type =
      "Error - Analysis Failed".data ∧
    (generate_preliminary_design
        [("error".data,
          Val.str "Failed to extract parameters using LLM.".data)]
        Option.none Option.none).span_lengths = [0] ∧
    (generate_preliminary_design
        [("error".data,
          Val.str "Failed to extract parameters using LLM.".data)]
        Option.none Option.none).bridge_width = 0 ∧
    validate_span_to_depth_ratio
      (generate_preliminary_design
        [("error".data,
          Val.str "Failed to extract parameters using LLM.".data)]
        Option.none Option.none).span_lengths.headI 0
      (generate_preliminary_design
        [("error".data,
          Val.str "Failed to extract parameters using LLM.".data)]
        Option.none Option.none).bridge_type =
      .ok (false, .mustBePositive) ∧
    composeScene
      (generate_preliminary_design
        [("error".data,
          Val.str "Failed to extract parameters using LLM.".data)]
        Option.none Option.none).span_lengths.headI 0
      Option.none = .ok ⟨0, [], 0⟩) :=
  ⟨by decide,
   C3_error_sentinel
     [("error".data, Val.str "Failed to extract parameters using LLM.".data)]
     Option.none Option.none (by decide)⟩

end Bridge3D
